import Mathlib

/-!
Verification of the zappy device-inventory validation core
(`src/zappy/core/device_inventory.py`).

The Python code is shallowly embedded: validators become Lean functions on
strings (working on `List Char` so that everything kernel-reduces), the
pandas DataFrame becomes a `Table` of association-list rows, and the
`DeviceInventory` object becomes an explicit `InventoryState` threaded
through `load_and_validate`.
-/

namespace Zappy

/-! ## Character and string helpers (kernel-reducible) -/

/-- Python `str.strip()` on a character list: drop leading and trailing
whitespace. -/
def lcTrim (cs : List Char) : List Char :=
  ((cs.dropWhile Char.isWhitespace).reverse.dropWhile Char.isWhitespace).reverse

/-- Python `str.strip()`. -/
def strTrim (s : String) : String := String.mk (lcTrim s.data)

/-- Python `str.lower()` (ASCII, as used by the MAC validator). -/
def strLower (s : String) : String := String.mk (s.data.map Char.toLower)

/-- Python `str.upper()` (ASCII, as used by the job-id validator). -/
def strUpper (s : String) : String := String.mk (s.data.map Char.toUpper)

/-- Python `sep.join` / `', '.join(...)`. -/
def strJoinSep (sep : String) : List String → String
  | [] => ""
  | a :: rest => rest.foldl (fun acc x => acc ++ sep ++ x) a

/-- Python `str.split(sep)` for a single-character separator.
`"".split('.') = [""]`, `"a.".split('.') = ["a", ""]`. -/
def splitOnChar (sep : Char) : List Char → List (List Char)
  | [] => [[]]
  | c :: rest =>
    let r := splitOnChar sep rest
    if c = sep then [] :: r
    else
      match r with
      | g :: gs => (c :: g) :: gs
      | [] => [[c]]

/-- Decimal digits to a natural number (`int(...)` on an all-digit string). -/
def digitsToNat (cs : List Char) : Nat :=
  cs.foldl (fun a c => a * 10 + (c.toNat - 48)) 0

/-! ## IPv4 parsing, mirroring CPython `ipaddress._ip_int_from_string` -/

/-- One dotted-quad octet, as in CPython `IPv4Address._parse_octet`:
non-empty, at most 3 ASCII digits, no leading zero, value at most 255. -/
def parseOctet (g : List Char) : Option Nat :=
  if g = [] then none
  else if 3 < g.length then none
  else if ¬ (g.all Char.isDigit = true) then none
  else if 1 < g.length ∧ g.headD '0' = '0' then none
  else
    let n := digitsToNat g
    if n ≤ 255 then some n else none

/-- Numeric value of a dotted quad. -/
def ipNum (a b c d : Nat) : Nat := ((a * 256 + b) * 256 + c) * 256 + d

/-- CPython `IPv4Address(str)` string parsing: exactly four octets joined
by dots; returns the 32-bit value. Parse failure (which Python reports as
`AddressValueError`) is `none`. -/
def parseIPv4 (s : String) : Option Nat :=
  match splitOnChar '.' s.data with
  | [a, b, c, d] =>
    match parseOctet a, parseOctet b, parseOctet c, parseOctet d with
    | some w, some x, some y, some z => some (ipNum w x y z)
    | _, _, _, _ => none
  | _ => none

/-- Membership of address `n` in the network given by
(network address, prefix length), as CPython `addr in IPv4Network(...)`:
a closed range from the network address to the broadcast address. -/
def netContains (net : Nat × Nat) (n : Nat) : Bool :=
  decide (net.1 ≤ n ∧ n ≤ net.1 + (2 ^ (32 - net.2) - 1))

/-- CPython `IPv4Address._constants._private_networks` (the list backing
`IPv4Address.is_private`). -/
def pyPrivateNetworks : List (Nat × Nat) :=
  [ (ipNum 0 0 0 0, 8)
  , (ipNum 10 0 0 0, 8)
  , (ipNum 127 0 0 0, 8)
  , (ipNum 169 254 0 0, 16)
  , (ipNum 172 16 0 0, 12)
  , (ipNum 192 0 0 0, 29)
  , (ipNum 192 0 0 170, 31)
  , (ipNum 192 0 2 0, 24)
  , (ipNum 192 168 0 0, 16)
  , (ipNum 198 18 0 0, 15)
  , (ipNum 198 51 100 0, 24)
  , (ipNum 203 0 113 0, 24)
  , (ipNum 240 0 0 0, 4)
  , (ipNum 255 255 255 255, 32) ]

/-- CPython `IPv4Address.is_private`. -/
def pyIsPrivate (n : Nat) : Bool :=
  pyPrivateNetworks.any (fun net => netContains net n)

/-- CPython `IPv4Address.is_multicast`: membership in 224.0.0.0/4. -/
def pyIsMulticast (n : Nat) : Bool := netContains (ipNum 224 0 0 0, 4) n

/-! ## Field validators (source lines 19-116 of device_inventory.py) -/

/-- Job-id pattern `J` + 4 digits, optionally `-` + 2 digits
(regex `^J\d{4}(-\d{2})?$`). -/
def jobIdMatch : List Char → Bool
  | ['J', a, b, c, d] =>
    a.isDigit && b.isDigit && c.isDigit && d.isDigit
  | ['J', a, b, c, d, '-', e, f] =>
    a.isDigit && b.isDigit && c.isDigit && d.isDigit && e.isDigit && f.isDigit
  | _ => false

/-- `validate_job_id` on a string: falsy or pattern-mismatch is `false`;
the value is stripped and upper-cased before matching. -/
def validate_job_id (s : String) : Bool :=
  if s.data = [] then false
  else jobIdMatch ((lcTrim s.data).map Char.toUpper)

/-- `validate_ip` on a string: `IPv4Address(ip).is_private`, with
`AddressValueError` caught as `false`. -/
def validate_ip (s : String) : Bool :=
  match parseIPv4 s with
  | some n => pyIsPrivate n
  | none => false

/-- `validate_multicast_address` on a string: `IPv4Address(x).is_multicast`,
with `AddressValueError` caught as `false`. -/
def validate_multicast_address (s : String) : Bool :=
  match parseIPv4 s with
  | some n => pyIsMulticast n
  | none => false

/-- Netmask with `p` leading one bits (CPython `_ip_int_from_prefix`). -/
def maskOfLen (p : Nat) : Nat := 2 ^ 32 - 2 ^ (32 - p)

/-- Is `n` a contiguous netmask (CPython `_prefix_from_ip_int` succeeds)? -/
def isNetmaskInt (n : Nat) : Bool :=
  (List.range 33).any (fun p => n == maskOfLen p)

/-- A prefix-length string as accepted by CPython
`_prefix_from_prefix_string`: non-empty ASCII digits with value at most 32. -/
def parseMaskLen (s : String) : Option Nat :=
  if s.data ≠ [] ∧ s.data.all Char.isDigit = true then
    let n := digitsToNat s.data
    if n ≤ 32 then some n else none
  else none

/-- `validate_subnet_mask` on a string: `IPv4Network("0.0.0.0/" + mask,
strict=True)` succeeds. The mask may be a prefix-length string, a contiguous
netmask, or a contiguous hostmask (CPython `_make_netmask`); the empty
string is falsy and a mask containing `/` makes the combined string have
two slashes, which raises. -/
def validate_subnet_mask (s : String) : Bool :=
  if s.data = [] then false
  else if s.data.any (fun c => c = '/') then false
  else
    match parseMaskLen s with
    | some _ => true
    | none =>
      match parseIPv4 s with
      | some n => isNetmaskInt n || isNetmaskInt (2 ^ 32 - 1 - n)
      | none => false

/-- Lowercase hex digit `[0-9a-f]`. -/
def isHexDigitLower (c : Char) : Bool :=
  c.isDigit || ('a' ≤ c && c ≤ 'f')

/-- The regex `([0-9a-f]{2}:){5}[0-9a-f]{2}` as a shape on 17 characters. -/
def macShape : List Char → Bool
  | [a, b, ':', c, d, ':', e, f, ':', g, h, ':', i, j, ':', k, l] =>
    [a, b, c, d, e, f, g, h, i, j, k, l].all isHexDigitLower
  | _ => false

/-- `validate_mac` on a string: `re.fullmatch(pattern, mac.lower())`. -/
def validate_mac (s : String) : Bool :=
  macShape (s.data.map Char.toLower)

/-- `validate_serial_number` on a string cell (post `fillna`, cells are
strings and `pd.isna` is false): non-blank after strip. -/
def serialNonBlank (s : String) : Bool := lcTrim s.data ≠ []

/-- The four address ranges the spec claims for `validate_ip`
(10.0.0.0/8, 172.16.0.0/12, 192.168.0.0/16, 127.0.0.0/8), written from the
spec wording for comparison against the code's `pyIsPrivate`. -/
def claimedPrivateRanges (n : Nat) : Bool :=
  netContains (ipNum 10 0 0 0, 8) n || netContains (ipNum 172 16 0 0, 12) n
    || netContains (ipNum 192 168 0 0, 16) n || netContains (ipNum 127 0 0 0, 8) n

/-- The remaining ten networks of CPython's IPv4 private list, which the
spec's four-range description omits. -/
def extraPrivateRanges (n : Nat) : Bool :=
  netContains (ipNum 0 0 0 0, 8) n || netContains (ipNum 169 254 0 0, 16) n
    || netContains (ipNum 192 0 0 0, 29) n || netContains (ipNum 192 0 0 170, 31) n
    || netContains (ipNum 192 0 2 0, 24) n || netContains (ipNum 198 18 0 0, 15) n
    || netContains (ipNum 198 51 100 0, 24) n || netContains (ipNum 203 0 113 0, 24) n
    || netContains (ipNum 240 0 0 0, 4) n || netContains (ipNum 255 255 255 255, 32) n

/-- The spec-claimed MAC acceptance: the value itself (no lower-casing)
is six lowercase-hex byte groups joined by colons. Written from the spec
wording for comparison against the code's `validate_mac`. -/
def lowercaseMacLiteral (s : String) : Bool := macShape s.data

/-! ## Python dynamic values, for the totality claims

`PyVal` models the dynamically typed arguments the validators can receive;
a validator that raises in Python is embedded as `Except.error`. -/

inductive PyVal where
  | none : PyVal
  | str : String → PyVal
  | int : Int → PyVal
deriving DecidableEq

/-- `validate_job_id` on an arbitrary value: the `isinstance` guard makes
every non-string (and the empty string) `False`; never raises. -/
def validate_job_id_py : PyVal → Except String Bool
  | PyVal.str s => Except.ok (validate_job_id s)
  | _ => Except.ok false

/-- `validate_ip` on an arbitrary value: `IPv4Address` accepts a Python int
in range as a raw address and raises `AddressValueError` (caught) on
anything else that fails to parse; never raises past the validator. -/
def validate_ip_py : PyVal → Except String Bool
  | PyVal.str s => Except.ok (validate_ip s)
  | PyVal.int n =>
    Except.ok (if 0 ≤ n ∧ n < 2 ^ 32 then pyIsPrivate n.toNat else false)
  | PyVal.none => Except.ok false

/-- `validate_subnet_mask` on an arbitrary value: the `isinstance` guard
returns `False` for non-strings; never raises. -/
def validate_subnet_mask_py : PyVal → Except String Bool
  | PyVal.str s => Except.ok (validate_subnet_mask s)
  | _ => Except.ok false

/-- `validate_mac` on an arbitrary value: the body immediately calls
`mac.lower()`, so any non-string argument raises `AttributeError`. -/
def validate_mac_py : PyVal → Except String Bool
  | PyVal.str s => Except.ok (validate_mac s)
  | PyVal.int _ => Except.error "AttributeError: lower"
  | PyVal.none => Except.error "AttributeError: lower"

/-- `validate_multicast_address` on an arbitrary value; like
`validate_ip` it catches `AddressValueError` and never raises. -/
def validate_multicast_address_py : PyVal → Except String Bool
  | PyVal.str s => Except.ok (validate_multicast_address s)
  | PyVal.int n =>
    Except.ok (if 0 ≤ n ∧ n < 2 ^ 32 then pyIsMulticast n.toNat else false)
  | PyVal.none => Except.ok false

/-- `validate_serial_number` on an arbitrary value: `pd.isna` then
`str(val).strip()`; never raises on these value kinds. -/
def validate_serial_number_py : PyVal → Except String Bool
  | PyVal.none => Except.ok false
  | PyVal.str s => Except.ok (serialNonBlank s)
  | PyVal.int _ => Except.ok true

/-- Modelled from the spec: `validate_multicast_port` does not exist under
`src/` (only its unit test imports it). Spec 4.1: the value converts to an
integer, accepting an int directly or a trimmed optionally signed digit
string; non-numeric input fails the conversion. -/
def pyToInt : PyVal → Option Int
  | PyVal.int n => some n
  | PyVal.str s =>
    match lcTrim s.data with
    | '-' :: rest =>
      if rest ≠ [] ∧ rest.all Char.isDigit = true then
        some (-(digitsToNat rest : Int))
      else none
    | '+' :: rest =>
      if rest ≠ [] ∧ rest.all Char.isDigit = true then
        some ((digitsToNat rest : Int))
      else none
    | cs =>
      if cs ≠ [] ∧ cs.all Char.isDigit = true then
        some ((digitsToNat cs : Int))
      else none
  | PyVal.none => none

/-- Modelled from the spec: `validate_multicast_port` is absent from `src/`
(only `tests/unit/test_device_inventory.py` imports it). Spec 4.1: true iff
the value converts to an integer in the inclusive range [1025, 65000];
non-numeric input yields false. -/
def validate_multicast_port (v : PyVal) : Bool :=
  match pyToInt v with
  | some n => decide (1025 ≤ n ∧ n ≤ 65000)
  | none => false

/-! ## Schema constants (DeviceInventory class attributes) -/

def DEVICE_TYPES : List String :=
  [ "Audio", "Video", "Audiovisual", "Control"
  , "Intercom", "Networking", "Security", "Surveillance", "Access Control" ]

def MULTICAST_LABELS : List String := ["Audio", "Video", "AUX", "Streaming"]

def REQUIRED_COLUMNS : List String :=
  [ "job_id", "job_property", "device_name", "device_location", "device_type"
  , "ip_address", "mac_address", "subnet_mask", "default_gateway", "serial_number" ]

def OPTIONAL_COLUMNS : List String := ["dns_1", "dns_2", "notes"]

/-! ## Table model (pandas DataFrame, shallowly) -/

/-- A cell: `none` is a missing/NA value, `some s` a string value. -/
abbrev Cell := Option String

/-- A row: association list from column name to cell. -/
abbrev Row := List (String × Cell)

/-- A parsed table: column list plus rows keyed by column name. -/
structure Table where
  cols : List String
  rows : List Row
deriving DecidableEq

/-- Cell of column `c` in row `r`, if the column is present. -/
def getCell (r : Row) (c : String) : Option Cell :=
  (r.find? (fun p => p.1 == c)).map (fun p => p.2)

/-- String value of column `c` in row `r` (used after `fillna`, when every
cell is a string); absent column or NA cell reads as the empty string. -/
def getS (r : Row) (c : String) : String :=
  match getCell r c with
  | some (some s) => s
  | _ => ""

/-- The dataclass `ValidationResult`. -/
structure ValidationResult where
  valid : Bool
  errors : List String
deriving DecidableEq

/-- The two mutable fields of a `DeviceInventory` object:
`self.df` and `self.errors`. -/
structure InventoryState where
  df : Option Table
  errors : List String
deriving DecidableEq

/-- `DeviceInventory()` constructed with no path: `df = None`, `errors = []`. -/
def inv0 : InventoryState := InventoryState.mk none []

/-- Required columns absent from the table (line 159). -/
def missingOf (t : Table) : List String :=
  REQUIRED_COLUMNS.filter (fun c => ¬ t.cols.contains c)

/-- The single missing-columns error list (line 161). -/
def missingMsg (t : Table) : List String :=
  ["Missing required columns: " ++ strJoinSep ", " (missingOf t)]

/-- Backfill absent optional columns with the empty string (lines 165-167). -/
def backfillOptional (t : Table) : Table :=
  OPTIONAL_COLUMNS.foldl
    (fun d col =>
      if d.cols.contains col then d
      else Table.mk (d.cols ++ [col]) (d.rows.map (fun r => r ++ [(col, some "")])))
    t

/-- `df.fillna("")` (line 169): every NA cell becomes the empty string. -/
def fillna (t : Table) : Table :=
  Table.mk t.cols (t.rows.map (fun r => r.map (fun p => (p.1, some (p.2.getD "")))))

/-- The table that row validation runs over and that is stored on success:
optional columns backfilled, then NA normalized. -/
def cleanTable (t : Table) : Table := fillna (backfillOptional t)

/-- Error-message row tag: `Row N: msg`. -/
def rowN (n : Nat) (msg : String) : String :=
  "Row " ++ toString n ++ ": " ++ msg

/-! ## Row validation (lines 172-208), split per check in source order -/

/-- Required-field blankness errors (lines 176-178): post-`fillna` the
`pd.isna` disjunct is always false, so blank means empty after strip. -/
def requiredErrors (n : Nat) (r : Row) : List String :=
  REQUIRED_COLUMNS.filterMap
    (fun col =>
      if lcTrim (getS r col).data = [] then
        some (rowN n (col ++ " is required"))
      else none)

/-- Job-id check (lines 181-182). -/
def jobIdErrors (n : Nat) (r : Row) : List String :=
  if validate_job_id (getS r "job_id") then []
  else [rowN n "\x27job_id\x27 must be JXXXX or JXXXX-XX format"]

/-- Private-IPv4 check over the three address-like fields (lines 185-187). -/
def ipFieldErrors (n : Nat) (r : Row) : List String :=
  ["ip_address", "subnet_mask", "default_gateway"].filterMap
    (fun f =>
      if validate_ip (getS r f) then none
      else some (rowN n ("Invalid IPv4 address in \x27" ++ f ++ "\x27")))

/-- Subnet-mask check (lines 190-191). -/
def subnetErrors (n : Nat) (r : Row) : List String :=
  if validate_subnet_mask (getS r "subnet_mask") then []
  else [rowN n "Invalid subnet mask address in \x27subnet_mask\x27"]

/-- MAC check (lines 194-195). -/
def macErrors (n : Nat) (r : Row) : List String :=
  if validate_mac (getS r "mac_address") then []
  else [rowN n "Invalid MAC address (use aa:bb:cc:dd:ee:ff)"]

/-- Serial-number check (lines 198-199). -/
def serialErrors (n : Nat) (r : Row) : List String :=
  if serialNonBlank (getS r "serial_number") then []
  else [rowN n "\x27serial_number\x27 required"]

/-- Device-type enumeration check (lines 202-204); only fires on a
non-empty value outside the enumerated set. -/
def deviceTypeErrors (n : Nat) (r : Row) : List String :=
  if getS r "device_type" ≠ "" ∧ ¬ DEVICE_TYPES.contains (getS r "device_type") then
    [rowN n ("\x27device_type\x27 must be one of: " ++ strJoinSep ", " DEVICE_TYPES)]
  else []

/-- All error messages for one row, in source order; `idx` is the 0-based
row index and messages are tagged `Row (idx+2)`. -/
def rowErrors (idx : Nat) (r : Row) : List String :=
  requiredErrors (idx + 2) r ++ jobIdErrors (idx + 2) r ++ ipFieldErrors (idx + 2) r
    ++ subnetErrors (idx + 2) r ++ macErrors (idx + 2) r ++ serialErrors (idx + 2) r
    ++ deviceTypeErrors (idx + 2) r

/-- The accumulated error list over all rows (the loop of lines 172-208):
each row's errors are appended in order; the `valid` flag equals this list
being empty, since `valid` is only cleared when a row's list is non-empty. -/
def tableErrors (t : Table) : List String :=
  (t.rows.enum.map (fun p => rowErrors p.1 p.2)).flatten

/-- `DeviceInventory.load_and_validate` (lines 140-212). The input is the
outcome of `pd.read_csv`: `Except.error e` is a parse failure (the early
return at line 153, which touches neither field), `Except.ok t` a parsed
table. Missing required columns return early with the dataset untouched;
otherwise row validation runs on the cleaned table and the dataset is
stored only when every row is clean (line 210-211 `if valid: self.df = df`:
the previous dataset is kept on failure). -/
def load_and_validate (st : InventoryState) (input : Except String Table) :
    InventoryState × ValidationResult :=
  match input with
  | Except.error e =>
    (st, ValidationResult.mk false ["Failed to read CSV: " ++ e])
  | Except.ok t =>
    if missingOf t = [] then
      let errs := tableErrors (cleanTable t)
      if errs = [] then
        (InventoryState.mk (some (cleanTable t)) errs, ValidationResult.mk true errs)
      else
        (InventoryState.mk st.df errs, ValidationResult.mk false errs)
    else
      (InventoryState.mk st.df (missingMsg t), ValidationResult.mk false (missingMsg t))

/-! ## View projections (lines 214-299) -/

/-- `get_ips` (line 221). -/
def get_ips (st : InventoryState) : List String :=
  match st.df with
  | some df => df.rows.map (fun r => getS r "ip_address")
  | none => []

/-- `get_ips_with_names` (lines 223-238): pairs (ip, label). -/
def get_ips_with_names (st : InventoryState) : List (String × String) :=
  match st.df with
  | some df =>
    df.rows.map (fun r =>
      ( getS r "ip_address"
      , getS r "job_id" ++ " - " ++ getS r "device_name"
          ++ " (" ++ getS r "device_location" ++ ")" ))
  | none => []

/-- One record of `get_ips_with_details`. -/
structure DeviceDetail where
  job_id : String
  device : String
  ip : String
  location : String
  dtype : String
deriving DecidableEq

/-- `get_ips_with_details` (lines 240-259). -/
def get_ips_with_details (st : InventoryState) : List DeviceDetail :=
  match st.df with
  | some df =>
    df.rows.map (fun r =>
      DeviceDetail.mk
        (getS r "job_id")
        (if strTrim (getS r "device_name") = "" then "Unnamed"
         else strTrim (getS r "device_name"))
        (getS r "ip_address")
        (strTrim (getS r "device_location"))
        (strTrim (getS r "device_type")))
  | none => []

/-- The fixed display column subset (lines 270-273). -/
def DISPLAY_COLUMNS : List String :=
  [ "job_property", "device_name", "device_location", "device_type"
  , "ip_address", "mac_address", "subnet_mask", "default_gateway", "serial_number" ]

/-- `get_display_df` (lines 261-274): the display-column projection of the
dataset, or an empty frame. -/
def get_display_df (st : InventoryState) : Table :=
  match st.df with
  | some df =>
    Table.mk DISPLAY_COLUMNS
      (df.rows.map (fun r =>
        DISPLAY_COLUMNS.map (fun c => (c, (getCell r c).getD (some "")))))
  | none => Table.mk [] []

/-- `df.to_csv(index=False)`: header line then one line per row. -/
def toCsv (t : Table) : String :=
  strJoinSep "," t.cols ++ "\n"
    ++ String.join (t.rows.map (fun r =>
        strJoinSep "," (t.cols.map (fun c => getS r c)) ++ "\n"))

/-- `export_troubleshoot_csv` (lines 298-299). -/
def export_troubleshoot_csv (st : InventoryState) : String :=
  match st.df with
  | some df => toCsv df
  | none => ""

/-! ## Concrete tables used as witnesses and counterexamples -/

/-- A fully valid row. -/
def goodRow : Row :=
  [ ("job_id", some "J1001"), ("job_property", some "Hotel")
  , ("device_name", some "Router"), ("device_location", some "Rack")
  , ("device_type", some "Audio"), ("ip_address", some "10.0.0.1")
  , ("mac_address", some "aa:bb:cc:dd:ee:ff"), ("subnet_mask", some "255.255.255.0")
  , ("default_gateway", some "10.0.0.254"), ("serial_number", some "SN1") ]

/-- A table that validates successfully. -/
def Tgood : Table := Table.mk REQUIRED_COLUMNS [goodRow]

/-- Same shape as `goodRow` but with a malformed job id, so row
validation fails while all required columns are present. -/
def badRow : Row :=
  [ ("job_id", some "BAD"), ("job_property", some "Hotel")
  , ("device_name", some "Router"), ("device_location", some "Rack")
  , ("device_type", some "Audio"), ("ip_address", some "10.0.0.1")
  , ("mac_address", some "aa:bb:cc:dd:ee:ff"), ("subnet_mask", some "255.255.255.0")
  , ("default_gateway", some "10.0.0.254"), ("serial_number", some "SN1") ]

/-- A table whose single row fails validation. -/
def Tbad : Table := Table.mk REQUIRED_COLUMNS [badRow]

/-- A valid table carrying a non-blank `multicast_address_1` column with no
paired port or label columns. -/
def Tmc : Table :=
  Table.mk (REQUIRED_COLUMNS ++ ["multicast_address_1"])
    [goodRow ++ [("multicast_address_1", some "224.0.0.1")]]

/-- `goodRow` with subnet mask 128.0.0.0: a syntactically valid contiguous
netmask outside Python's private-address set. -/
def row128 : Row :=
  [ ("job_id", some "J1001"), ("job_property", some "Hotel")
  , ("device_name", some "Router"), ("device_location", some "Rack")
  , ("device_type", some "Audio"), ("ip_address", some "10.0.0.1")
  , ("mac_address", some "aa:bb:cc:dd:ee:ff"), ("subnet_mask", some "128.0.0.0")
  , ("default_gateway", some "10.0.0.254"), ("serial_number", some "SN1") ]

/-- The table containing `row128`. -/
def T128 : Table := Table.mk REQUIRED_COLUMNS [row128]

/-- `row128` after `cleanTable` (optional columns appended). -/
def row128clean : Row :=
  row128 ++ [("dns_1", some ""), ("dns_2", some ""), ("notes", some "")]

/-! ## Helper lemmas -/

/-- `pyIsPrivate` is exactly the four spec-claimed ranges plus the ten
extra networks. -/
theorem pyIsPrivate_true_iff (n : Nat) :
    pyIsPrivate n = true ↔
      (claimedPrivateRanges n = true ∨ extraPrivateRanges n = true) := by
  simp only [pyIsPrivate, pyPrivateNetworks, claimedPrivateRanges, extraPrivateRanges,
    List.any_cons, List.any_nil, Bool.or_eq_true, Bool.or_false]
  tauto

/-- If the subnet-mask cell fails `validate_ip`, the corresponding message
is among the row's errors. -/
theorem subnet_ip_msg_mem (i : Nat) (r : Row)
    (h : validate_ip (getS r "subnet_mask") = false) :
    rowN (i + 2) "Invalid IPv4 address in \x27subnet_mask\x27" ∈ rowErrors i r := by
  have hmem : rowN (i + 2) "Invalid IPv4 address in \x27subnet_mask\x27"
      ∈ ipFieldErrors (i + 2) r := by
    apply List.mem_filterMap.mpr
    refine ⟨"subnet_mask", by decide, ?_⟩
    simp [h]
  simp only [rowErrors, List.mem_append]
  tauto

/-- A row with unconditionally non-empty errors makes the flattened
per-row error list non-empty, from any starting index. -/
theorem flatten_map_enumFrom_ne_nil (f : Nat → Row → List String) (r : Row) :
    ∀ (l : List Row) (k : Nat), r ∈ l → (∀ i, f i r ≠ []) →
      ((List.enumFrom k l).map (fun p => f p.1 p.2)).flatten ≠ [] := by
  intro l
  induction l with
  | nil => intro k hr _; exact absurd hr (List.not_mem_nil r)
  | cons a as ih =>
    intro k hr hne
    simp only [List.enumFrom, List.map_cons, List.flatten_cons]
    intro hcontra
    rcases List.append_eq_nil.mp hcontra with ⟨h1, h2⟩
    rcases List.mem_cons.mp hr with rfl | hmem
    · exact hne k h1
    · exact ih (k + 1) hmem hne h2

/-- A member row with unconditionally non-empty errors makes
`tableErrors` non-empty. -/
theorem tableErrors_ne_nil (t : Table) (r : Row) (hr : r ∈ t.rows)
    (hne : ∀ i, rowErrors i r ≠ []) : tableErrors t ≠ [] := by
  have := flatten_map_enumFrom_ne_nil rowErrors r t.rows 0 hr hne
  simpa [tableErrors, List.enum] using this

/-- If row validation produced any error, `load_and_validate` reports
`valid = false`. -/
theorem valid_false_of_errors (st : InventoryState) (t : Table)
    (h : tableErrors (cleanTable t) ≠ []) :
    (load_and_validate st (Except.ok t)).2.valid = false := by
  by_cases hm : missingOf t = []
  · simp [load_and_validate, hm, h]
  · simp [load_and_validate, hm]

/-- Row validation reads only the required columns: two rows agreeing on
every required column produce identical error lists. -/
theorem rowErrors_congr (i : Nat) (r1 r2 : Row)
    (h : ∀ c ∈ REQUIRED_COLUMNS, getS r1 c = getS r2 c) :
    rowErrors i r1 = rowErrors i r2 := by
  have hjob := h "job_id" (by decide)
  have hsub := h "subnet_mask" (by decide)
  have hmac := h "mac_address" (by decide)
  have hser := h "serial_number" (by decide)
  have hdt := h "device_type" (by decide)
  have e1 : requiredErrors (i + 2) r1 = requiredErrors (i + 2) r2 := by
    unfold requiredErrors
    exact List.filterMap_congr (fun c hc => by rw [h c hc])
  have e2 : jobIdErrors (i + 2) r1 = jobIdErrors (i + 2) r2 := by
    unfold jobIdErrors
    rw [hjob]
  have e3 : ipFieldErrors (i + 2) r1 = ipFieldErrors (i + 2) r2 := by
    unfold ipFieldErrors
    refine List.filterMap_congr (fun c hc => ?_)
    have hc' : c ∈ REQUIRED_COLUMNS := by
      simp only [List.mem_cons, List.not_mem_nil, or_false] at hc
      rcases hc with rfl | rfl | rfl <;> decide
    rw [h c hc']
  have e4 : subnetErrors (i + 2) r1 = subnetErrors (i + 2) r2 := by
    unfold subnetErrors
    rw [hsub]
  have e5 : macErrors (i + 2) r1 = macErrors (i + 2) r2 := by
    unfold macErrors
    rw [hmac]
  have e6 : serialErrors (i + 2) r1 = serialErrors (i + 2) r2 := by
    unfold serialErrors
    rw [hser]
  have e7 : deviceTypeErrors (i + 2) r1 = deviceTypeErrors (i + 2) r2 := by
    unfold deviceTypeErrors
    rw [hdt]
  unfold rowErrors
  rw [e1, e2, e3, e4, e5, e6, e7]

/-! ## Claim theorems -/

/-- C1 counterexample: the two fields are not replaced atomically. After a
successful load, a later failing call keeps the stale dataset next to the
freshly populated errors; and a parse-failure call leaves the old errors in
place. -/
theorem C1_counterexample :
    ((load_and_validate (load_and_validate inv0 (Except.ok Tgood)).1
          (Except.ok Tbad)).1.df = some (cleanTable Tgood)
      ∧ (load_and_validate (load_and_validate inv0 (Except.ok Tgood)).1
          (Except.ok Tbad)).2.valid = false
      ∧ (load_and_validate (load_and_validate inv0 (Except.ok Tgood)).1
          (Except.ok Tbad)).1.errors ≠ [])
    ∧ (load_and_validate (InventoryState.mk none ["old"])
        (Except.error "boom")).1.errors = ["old"] :=
  ⟨⟨by decide, by decide, by decide⟩, by decide⟩

/-- C1 amended: on success the dataset is set and the errors cleared, but on
failure the previous dataset is retained (not discarded), and a parse
failure leaves both fields untouched. -/
theorem C1_amended_update (st : InventoryState) (input : Except String Table) :
    ((load_and_validate st input).2.valid = true →
        (load_and_validate st input).1.df ≠ none
          ∧ (load_and_validate st input).1.errors = []
          ∧ (load_and_validate st input).2.errors = [])
    ∧ ((load_and_validate st input).2.valid = false →
        (load_and_validate st input).1.df = st.df)
    ∧ (∀ e, input = Except.error e → (load_and_validate st input).1 = st) := by
  match input with
  | Except.error e =>
    refine ⟨?_, ?_, ?_⟩ <;> simp [load_and_validate]
  | Except.ok t =>
    by_cases hm : missingOf t = []
    · by_cases he : tableErrors (cleanTable t) = []
      · refine ⟨?_, ?_, ?_⟩ <;> simp [load_and_validate, hm, he]
      · refine ⟨?_, ?_, ?_⟩ <;> simp [load_and_validate, hm, he]
    · refine ⟨?_, ?_, ?_⟩ <;> simp [load_and_validate, hm]

/-- C1 amended, witness at a concrete successful load. -/
theorem C1_amended_update_witness :
    (load_and_validate inv0 (Except.ok Tgood)).1.df ≠ none
      ∧ (load_and_validate inv0 (Except.ok Tgood)).1.errors = []
      ∧ (load_and_validate inv0 (Except.ok Tgood)).2.errors = [] :=
  (C1_amended_update inv0 (Except.ok Tgood)).1 (by decide)

/-- C2 counterexample: `validate_mac` raises `AttributeError` on `None` and
on an integer (the body calls `.lower()` unconditionally), so the validators
are not exception-free over arbitrary input. -/
theorem C2_counterexample :
    validate_mac_py PyVal.none = Except.error "AttributeError: lower"
      ∧ validate_mac_py (PyVal.int 0) = Except.error "AttributeError: lower" :=
  ⟨rfl, rfl⟩

/-- C2 amended: every validator except `validate_mac` returns a boolean on
arbitrary input without raising, and `validate_mac` does so on every string
input; only non-string input to `validate_mac` raises. -/
theorem C2_amended_totality (v : PyVal) :
    (∃ b, validate_job_id_py v = Except.ok b)
    ∧ (∃ b, validate_ip_py v = Except.ok b)
    ∧ (∃ b, validate_subnet_mask_py v = Except.ok b)
    ∧ (∃ b, validate_multicast_address_py v = Except.ok b)
    ∧ (∃ b, validate_serial_number_py v = Except.ok b)
    ∧ (∀ s, v = PyVal.str s → ∃ b, validate_mac_py v = Except.ok b) := by
  cases v with
  | none =>
    exact ⟨⟨_, rfl⟩, ⟨_, rfl⟩, ⟨_, rfl⟩, ⟨_, rfl⟩, ⟨_, rfl⟩, fun s hs => nomatch hs⟩
  | str s0 =>
    exact ⟨⟨_, rfl⟩, ⟨_, rfl⟩, ⟨_, rfl⟩, ⟨_, rfl⟩, ⟨_, rfl⟩, fun s hs => ⟨_, rfl⟩⟩
  | int n =>
    exact ⟨⟨_, rfl⟩, ⟨_, rfl⟩, ⟨_, rfl⟩, ⟨_, rfl⟩, ⟨_, rfl⟩, fun s hs => nomatch hs⟩

/-- C2 amended, witness: `validate_mac` is exception-free at a concrete
string. -/
theorem C2_amended_totality_witness :
    ∃ b, validate_mac_py (PyVal.str "aa") = Except.ok b :=
  (C2_amended_totality (PyVal.str "aa")).2.2.2.2.2 "aa" rfl

/-- C3 counterexample: 169.254.1.1 is a syntactically valid IPv4 address
outside the four claimed ranges, yet `validate_ip` accepts it (Python's
`is_private` also covers link-local and other reserved blocks). -/
theorem C3_counterexample :
    parseIPv4 "169.254.1.1" = some (ipNum 169 254 1 1)
      ∧ claimedPrivateRanges (ipNum 169 254 1 1) = false
      ∧ validate_ip "169.254.1.1" = true :=
  ⟨by decide, by decide, by decide⟩

/-- C3 amended: `validate_ip` is true iff the value parses as a dotted-quad
IPv4 address and lies in CPython's private list — the four claimed ranges or
one of the ten extra networks (0.0.0.0/8, 169.254.0.0/16, 192.0.0.0/29,
192.0.0.170/31, 192.0.2.0/24, 198.18.0.0/15, 198.51.100.0/24,
203.0.113.0/24, 240.0.0.0/4, 255.255.255.255/32); malformed input is false. -/
theorem C3_amended_private_iff (s : String) :
    validate_ip s = true ↔
      ∃ n, parseIPv4 s = some n
        ∧ (claimedPrivateRanges n = true ∨ extraPrivateRanges n = true) := by
  unfold validate_ip
  cases hp : parseIPv4 s with
  | none => simp
  | some n =>
    rw [pyIsPrivate_true_iff n]
    constructor
    · intro h
      exact ⟨n, rfl, h⟩
    · rintro ⟨m, hm, h⟩
      injection hm with hm'
      subst hm'
      exact h

/-- C4 counterexample: a table whose row carries a non-blank
`multicast_address_1` and no paired port or label columns validates with no
errors at all — the claimed conditional requirement on the paired fields is
never enforced. -/
theorem C4_counterexample :
    getS ((cleanTable Tmc).rows.headD []) "multicast_address_1" ≠ ""
      ∧ (load_and_validate inv0 (Except.ok Tmc)).2.errors = []
      ∧ (load_and_validate inv0 (Except.ok Tmc)).2.valid = true :=
  ⟨by decide, by decide, by decide⟩

/-- C4 amended: row validation performs no multicast checks at all — its
errors depend only on the required columns' values, so a blank multicast
address field yields no paired-field errors (as claimed) but a non-blank one
yields none either; a concrete valid table with a non-blank
`multicast_address_1` and absent paired columns produces no errors. -/
theorem C4_no_multicast_validation :
    (∀ (i : Nat) (r1 r2 : Row), (∀ c ∈ REQUIRED_COLUMNS, getS r1 c = getS r2 c) →
        rowErrors i r1 = rowErrors i r2)
    ∧ getS ((cleanTable Tmc).rows.headD []) "multicast_address_1" = "224.0.0.1"
    ∧ (load_and_validate inv0 (Except.ok Tmc)).2 = ValidationResult.mk true [] :=
  ⟨fun i r1 r2 h => rowErrors_congr i r1 r2 h, by decide, by decide⟩

/-- C4 amended, witness: adding a non-blank multicast address to a row does
not change its row errors. -/
theorem C4_no_multicast_validation_witness :
    rowErrors 0 [("job_id", some "J1001")]
      = rowErrors 0 [("job_id", some "J1001"), ("multicast_address_1", some "224.0.0.1")] :=
  C4_no_multicast_validation.1 0 _ _ (by decide)

/-- C5 (spec-modelled, `validate_multicast_port` exists only in the unit
tests): true iff the value converts to an integer in [1025, 65000], with the
claim's concrete cases, including the repo test's `"1025"` string case. -/
theorem C5_multicast_port :
    (∀ v, validate_multicast_port v = true ↔
        ∃ n, pyToInt v = some n ∧ 1025 ≤ n ∧ n ≤ 65000)
    ∧ validate_multicast_port (PyVal.int 1024) = false
    ∧ validate_multicast_port (PyVal.int 1025) = true
    ∧ validate_multicast_port (PyVal.int 65000) = true
    ∧ validate_multicast_port (PyVal.int 65001) = false
    ∧ validate_multicast_port (PyVal.str "abc") = false
    ∧ validate_multicast_port (PyVal.str "1025") = true
    ∧ validate_multicast_port PyVal.none = false := by
  refine ⟨?_, by decide, by decide, by decide, by decide, by decide, by decide, by decide⟩
  intro v
  unfold validate_multicast_port
  cases hp : pyToInt v with
  | none => simp
  | some n => simp

/-- C6 counterexample: `validate_mac` accepts the upper-case
`"AA:BB:CC:DD:EE:FF"`, which is not six lowercase-hex groups, because the
value is lower-cased before matching. -/
theorem C6_counterexample :
    validate_mac "AA:BB:CC:DD:EE:FF" = true
      ∧ lowercaseMacLiteral "AA:BB:CC:DD:EE:FF" = false :=
  ⟨by decide, by decide⟩

/-- C6 amended: `validate_mac` is true iff the lower-cased value is six
two-hex-digit groups joined by colons — case-insensitive on hex letters;
wrong group count, group length, or non-hex characters are false. -/
theorem C6_mac_case_insensitive :
    (∀ s, validate_mac s = lowercaseMacLiteral (strLower s))
    ∧ validate_mac "aa:bb:cc:dd:ee:ff" = true
    ∧ validate_mac "AA:BB:CC:DD:EE:FF" = true
    ∧ validate_mac "Aa:bB:cc:dd:ee:ff" = true
    ∧ validate_mac "aa:bb:cg:dd:ee:ff" = false
    ∧ validate_mac "AA:CC:DD:EE:FF" = false
    ∧ validate_mac "aaa:bb:cc:dd:ee:ff" = false
    ∧ validate_mac "" = false :=
  ⟨fun _ => rfl, by decide, by decide, by decide, by decide, by decide, by decide, by decide⟩

/-- C7: a parseable table missing required columns yields `valid = false`
with exactly one error naming all missing columns and no row-level errors
(row validation is skipped by the early return). -/
theorem C7_missing_columns (st : InventoryState) (t : Table)
    (h : missingOf t ≠ []) :
    (load_and_validate st (Except.ok t)).2
        = ValidationResult.mk false
            ["Missing required columns: " ++ strJoinSep ", " (missingOf t)]
      ∧ (load_and_validate st (Except.ok t)).2.errors.length = 1 := by
  constructor <;> simp [load_and_validate, missingMsg, h]

/-- C7 witness at a table with only a `job_id` column. -/
theorem C7_missing_columns_witness :
    (load_and_validate inv0 (Except.ok (Table.mk ["job_id"] []))).2
        = ValidationResult.mk false
            ["Missing required columns: "
              ++ strJoinSep ", " (missingOf (Table.mk ["job_id"] []))]
      ∧ (load_and_validate inv0 (Except.ok (Table.mk ["job_id"] []))).2.errors.length = 1 :=
  C7_missing_columns inv0 (Table.mk ["job_id"] []) (by decide)

/-- C8: a row whose `mac_address` cell is blank receives both the
required-field error and the invalid-MAC error — the two checks are
independent and not deduplicated. -/
theorem C8_blank_required_field_two_errors (i : Nat) (r : Row)
    (h : getS r "mac_address" = "") :
    rowN (i + 2) "mac_address is required" ∈ rowErrors i r
      ∧ rowN (i + 2) "Invalid MAC address (use aa:bb:cc:dd:ee:ff)" ∈ rowErrors i r := by
  have hreq : rowN (i + 2) "mac_address is required" ∈ requiredErrors (i + 2) r := by
    apply List.mem_filterMap.mpr
    refine ⟨"mac_address", by decide, ?_⟩
    simp [h, lcTrim]
  have hm : validate_mac (getS r "mac_address") = false := by rw [h]; rfl
  have hmac : rowN (i + 2) "Invalid MAC address (use aa:bb:cc:dd:ee:ff)"
      ∈ macErrors (i + 2) r := by
    simp [macErrors, hm]
  constructor <;> (simp only [rowErrors, List.mem_append]; tauto)

/-- C8 witness at a concrete row with a blank MAC cell. -/
theorem C8_blank_required_field_two_errors_witness :
    rowN 2 "mac_address is required" ∈ rowErrors 0 [("mac_address", some "")]
      ∧ rowN 2 "Invalid MAC address (use aa:bb:cc:dd:ee:ff)"
          ∈ rowErrors 0 [("mac_address", some "")] :=
  C8_blank_required_field_two_errors 0 [("mac_address", some "")] (by decide)

/-- C9: on input that validates successfully, a second `load_and_validate`
with the same input returns the identical `ValidationResult`, reaches the
identical state, and every projection returns identical results. -/
theorem C9_idempotent_on_valid (st : InventoryState) (t : Table)
    (h : (load_and_validate st (Except.ok t)).2.valid = true) :
    load_and_validate (load_and_validate st (Except.ok t)).1 (Except.ok t)
        = load_and_validate st (Except.ok t)
      ∧ get_ips (load_and_validate (load_and_validate st (Except.ok t)).1 (Except.ok t)).1
          = get_ips (load_and_validate st (Except.ok t)).1
      ∧ get_ips_with_names
            (load_and_validate (load_and_validate st (Except.ok t)).1 (Except.ok t)).1
          = get_ips_with_names (load_and_validate st (Except.ok t)).1
      ∧ get_ips_with_details
            (load_and_validate (load_and_validate st (Except.ok t)).1 (Except.ok t)).1
          = get_ips_with_details (load_and_validate st (Except.ok t)).1
      ∧ get_display_df
            (load_and_validate (load_and_validate st (Except.ok t)).1 (Except.ok t)).1
          = get_display_df (load_and_validate st (Except.ok t)).1
      ∧ export_troubleshoot_csv
            (load_and_validate (load_and_validate st (Except.ok t)).1 (Except.ok t)).1
          = export_troubleshoot_csv (load_and_validate st (Except.ok t)).1 := by
  have hm : missingOf t = [] := by
    by_contra hm
    simp [load_and_validate, hm] at h
  have he : tableErrors (cleanTable t) = [] := by
    by_contra he
    simp [load_and_validate, hm, he] at h
  have hmain : load_and_validate (load_and_validate st (Except.ok t)).1 (Except.ok t)
      = load_and_validate st (Except.ok t) := by
    simp [load_and_validate, hm, he]
  exact ⟨hmain, by rw [hmain], by rw [hmain], by rw [hmain], by rw [hmain], by rw [hmain]⟩

/-- C9 witness at a concrete valid table. -/
theorem C9_idempotent_on_valid_witness :
    load_and_validate (load_and_validate inv0 (Except.ok Tgood)).1 (Except.ok Tgood)
      = load_and_validate inv0 (Except.ok Tgood) :=
  (C9_idempotent_on_valid inv0 Tgood (by decide)).1

/-- C10: row validation runs the private-IPv4 check on `subnet_mask` too:
128.0.0.0 is a valid contiguous netmask accepted by `validate_subnet_mask`
but rejected by `validate_ip`, so every row carrying it gets an
"Invalid IPv4 address in subnet_mask" error and no table containing such a
row validates as `valid = true`. -/
theorem C10_subnet_checked_as_ip :
    validate_subnet_mask "128.0.0.0" = true
    ∧ validate_ip "128.0.0.0" = false
    ∧ (∀ (i : Nat) (r : Row), validate_ip (getS r "subnet_mask") = false →
        rowN (i + 2) "Invalid IPv4 address in \x27subnet_mask\x27" ∈ rowErrors i r)
    ∧ (∀ (st : InventoryState) (t : Table) (r : Row), r ∈ (cleanTable t).rows →
        validate_ip (getS r "subnet_mask") = false →
        (load_and_validate st (Except.ok t)).2.valid = false) := by
  refine ⟨by decide, by decide, fun i r h => subnet_ip_msg_mem i r h, ?_⟩
  intro st t r hr h
  apply valid_false_of_errors
  exact tableErrors_ne_nil (cleanTable t) r hr
    (fun i => List.ne_nil_of_mem (subnet_ip_msg_mem i r h))

/-- C10 witness: the concrete table with subnet mask 128.0.0.0 fails. -/
theorem C10_subnet_checked_as_ip_witness :
    (load_and_validate inv0 (Except.ok T128)).2.valid = false :=
  C10_subnet_checked_as_ip.2.2.2 inv0 T128 row128clean (by decide) (by decide)

end Zappy
